import Mathlib

/-!
Verification development for a small Flask e-commerce application
(`app.py` / `models.py`).  The Flask session is modelled as a flat
association list from string keys to session values: the login identity
is stored under the key "username", the catalog-name snapshot under
"items", and cart quantities directly under the item's name.  Database
tables (User, Item, Order, OrderItem) are modelled as lists of records
together with the next auto-increment primary key.  Handlers that can
raise an uncaught Python exception return an `Option` (or a dedicated
result type when the database commits before the exception point).
-/

/-- A value stored in the Flask session: the app stores strings (the
login identity), integers (cart quantities) and lists of item names
(the catalog snapshot under the key "items"). -/
inductive SVal where
  | str (s : String)
  | int (n : Int)
  | names (l : List String)
deriving DecidableEq, Repr

/-- The Flask session: a flat key/value mapping, modelled as an
association list with unique keys (Python dict semantics). -/
abbrev Session := List (String × SVal)

/-- Dictionary lookup: `session[key]` / `key in session`. -/
def slookup : Session → String → Option SVal
  | [], _ => none
  | (k, v) :: rest, key => if k == key then some v else slookup rest key

/-- Dictionary assignment `session[key] = v`: replaces the value of an
existing key in place, otherwise appends the new binding. -/
def sinsert : Session → String → SVal → Session
  | [], key, v => [(key, v)]
  | (k, w) :: rest, key, v =>
    if k == key then (k, v) :: rest else (k, w) :: sinsert rest key v

/-- Dictionary deletion `del session[key]` / `session.pop(key, None)`:
removes the binding for `key` (a no-op when the key is absent). -/
def serase : Session → String → Session
  | [], _ => []
  | (a, b) :: rest, key =>
    if a == key then serase rest key else (a, b) :: serase rest key

/-- Handler `add_to_cart` (POST /cart/): if the submitted item name is a
key of the session, the stored value plus the submitted quantity is
stored back; otherwise the quantity is stored fresh.  When the existing
value is not an integer (e.g. the login identity string or the catalog
snapshot list) the Python addition raises `TypeError`, the request fails
with a 500 and the session is not saved: modelled by `none`. -/
def add_to_cart (s : Session) (item : String) (quantity : Int) : Option Session :=
  match slookup s item with
  | some (SVal.int n) => some (sinsert s item (SVal.int (n + quantity)))
  | some _ => none
  | none => some (sinsert s item (SVal.int quantity))

/-- Handler `delete_cart_item` (DELETE /cart/): returns the body/status
pair together with the resulting session.  A missing key yields 404 and
leaves the session untouched; otherwise the key is deleted and the
status is 200. -/
def delete_cart_item (s : Session) (item : String) : (String × Nat) × Session :=
  match slookup s item with
  | none => (("Item not in cart.", 404), s)
  | some _ => (("", 200), serase s item)

/-- The fixed allow-list of the `check_login` before-request hook, in
source order: `url_for` of index, register, login_form, create_user,
login and get_orders.  Both login endpoints share the path "/login/". -/
def allowed_routes : List String :=
  ["/", "/register/", "/login/", "/users/", "/login/", "/orders/"]

/-- Python `path.startswith('/static')`, stated on the character lists
of the strings. -/
def path_under_static (path : String) : Bool :=
  "/static".data.isPrefixOf path.data

/-- Before-request hook `check_login`: redirects to the login form when
no "username" key is in the session, the request path is not in the
allow-list and the path is not a static asset.  The request method is
taken as an argument to record that the hook never consults it. -/
def check_login (s : Session) (method : String) (path : String) : Option String :=
  if (slookup s "username").isNone
      && !(allowed_routes.contains path)
      && !(path_under_static path) then
    some "/login/"
  else
    none

-- Database model ------------------------------------------------------------

/-- Row of the `user` table (`models.User`), fields in column order. -/
structure User where
  id : Nat
  username : String
  name : String
  email : String
  address : String
  password : String
  payment : String
deriving DecidableEq, Repr

/-- Row of the `item` table (`models.Item`), fields in column order. -/
structure Item where
  id : Nat
  name : String
  image : String
  description : String
  price : Int
deriving DecidableEq, Repr

/-- Row of the `order_item` table (`models.OrderItem`), fields in column
order. -/
structure OrderItem where
  id : Nat
  order_id : Nat
  item_id : Nat
  quantity : Int
deriving DecidableEq, Repr

/-- Row of the `order` table (`models.Order`). -/
structure Order where
  id : Nat
  name : String
  address : String
  total : Int
deriving DecidableEq, Repr

/-- The SQLite database: one list of rows per table plus the next
auto-increment primary key of each table (SQLite keys start at 1). -/
structure DB where
  users : List User
  items : List Item
  orders : List Order
  orderItems : List OrderItem
  nextUserId : Nat
  nextItemId : Nat
  nextOrderId : Nat
  nextOrderItemId : Nat
deriving DecidableEq, Repr

-- models.py helpers ----------------------------------------------------------

/-- Function `models.has_user`: whether a `User` row with the given
username exists. -/
def has_user (db : DB) (username : String) : Bool :=
  (db.users.find? (fun u => u.username == username)).isSome

/-- Function `models.create_user`: inserts a new `User` row and commits.  The
commit raises `IntegrityError` when a unique column (username, email or
payment token) collides with an existing row; the exception is caught,
the session rolled back and `False` returned — modelled by `none` with
the database unchanged. -/
def create_user (db : DB) (username name email address payment password : String) :
    Option DB :=
  if db.users.any (fun u =>
      u.username == username || u.email == email || u.payment == payment) then
    none
  else
    some { db with
      users := db.users ++ [⟨db.nextUserId, username, name, email, address, password, payment⟩],
      nextUserId := db.nextUserId + 1 }

-- Registration and login handlers -------------------------------------------

/-- Outcome of the registration handler: which template/message is
rendered, or the redirect to the login form. -/
inductive RegisterResult where
  | usernameTaken
  | passwordMismatch
  | createFailed
  | redirectLogin
deriving DecidableEq, Repr

/-- Handler `create_user` (POST /users/), named `create_user_route` to
avoid clashing with `models.create_user`.  Checks, in order: username
already taken, password/confirmation mismatch, then attempts the insert
and reports a generic failure when it raises. -/
def create_user_route (db : DB)
    (username name email address payment password password_conf : String) :
    RegisterResult × DB :=
  if has_user db username then
    (RegisterResult.usernameTaken, db)
  else if password ≠ password_conf then
    (RegisterResult.passwordMismatch, db)
  else
    match create_user db username name email address payment password with
    | none => (RegisterResult.createFailed, db)
    | some db' => (RegisterResult.redirectLogin, db')

/-- What the login handler responds with: a re-rendered login form
(title, `username` template context from the session, optional flash
message) or a redirect. -/
inductive LoginView where
  | renderLogin (title : String) (usernameCtx : Option SVal) (message : Option String)
  | redirectTo (path : String)
deriving DecidableEq, Repr

/-- Handler `login` (POST /login/): looks up the first `User` row with
the submitted username and compares the stored plain-text password with
the submitted one.  On failure (no such user, or password mismatch) the
login form is re-rendered with the single generic message and the
session is untouched; on success the submitted username is stored in
the session and the response redirects to the catalog. -/
def login (db : DB) (s : Session) (username password : String) :
    LoginView × Session :=
  match db.users.find? (fun u => u.username == username) with
  | some u =>
    if u.password == password then
      (LoginView.redirectTo "/items/", sinsert s "username" (SVal.str username))
    else
      (LoginView.renderLogin "Login" (slookup s "username")
        (some "Wrong username or password"), s)
  | none =>
    (LoginView.renderLogin "Login" (slookup s "username")
      (some "Wrong username or password"), s)

-- Catalog seed (models.add_items and the five add_* helpers) ---------------

/-- Description text of the Normal Pocket Watch seed item. -/
def pocketWatchDesc : String :=
  "This is a totally normal pocket watch that only lets you travel time... "
    ++ "I mean tell time. Nothing other than telling time... except maybe for the occasional "
    ++ "glitch that sends you to different eras. But honestly, who needs reliable time-telling "
    ++ "anyway when you can accidentally end up in the Victorian era or the Jurassic period? "
    ++ "It's all fun and games until you realize your meeting starts in five minutes and you're "
    ++ "wearing a top hat and monocle."

/-- Description text of the Normal Ice Cream Machine seed item. -/
def iceCreamDesc : String :=
  "This ice cream machine allows you to have ice cream of any flavor you desire. It has all toppings you can think of. "
    ++ "You, also, never have to do any maintanence. Nothing special really... except maybe the fact that it conjures the creamiest, most heavenly scoops "
    ++ "with just a thought. Imagine a machine that reads your deepest dessert dreams and manifests them instantly. And no maintenance? That's right, it's "
    ++ "self-cleaning and as if by magic, it never runs out of ingredients. It's like having your personal Willy Wonka in your kitchen."

/-- Description text of the Normal Cloak seed item. -/
def cloakDesc : String :=
  "Like all cloaks, it is super cool and makes you look cool. Or I suppose it makes you look not at all since people cannot see you. "
    ++ "Did I mention that? It makes you invisible. Perfect for slipping out of boring meetings or sneaking into secret wizard gatherings. "
    ++ "But be careful not to get lost in your own invisibility-after all, with great power comes great responsibility. We wouldn't want "
    ++ "any illegal things happening. Whether you're avoiding an awkward encounter or seeking a thrilling adventure, this cloak has got you "
    ++ "covered... literally."

/-- Description text of the Normal Helmet seed item. -/
def helmetDesc : String :=
  "This football helmet provides superb protection. Ironically, it also increases the neural efficiency of the wearer. That's funny "
    ++ "because football gives you concussions which can lower brain function. Imagine a helmet that not only guards your noggin but also "
    ++ "sharpens it! While it keeps you safe from those brutal tackles, or whatever you need a helmet for these days, it somehow also boosts "
    ++ "your brainpower-turning you into a gridiron genius. But beware, even a super-smart helmet can't stop you from forgetting where you "
    ++ "your keys after the game. Ideal for the player who wants to outthink the competition, both on and off the field. It's all about "
    ++ "about balancing brawn with brains."

/-- Description text of the Normal Wormhole Generator seed item. -/
def generatorDesc : String :=
  "This generator is a proprietary technology that creates wormholes. These incredibly intricate machines allow you to travel long "
    ++ "distances in just a few steps. User manual sold seperately, but who needs instruction for interdimensional travel anyway? Just "
    ++ "press the shiny red button and hope for the best. Nothing bad as ever happened from shiny red buttons, right? Whether you're "
    ++ "late for a meeting on the other side of the planet or simply curious about what's in your neighbor's fridge. This handy gadget "
    ++ "has got you covered. Just remember to close the wormhole behind you. You don't want any unexpected visitors from alternate "
    ++ "realities crashing your party. Unless you do for some reason. We don't judge, just take your money."

/-- Seed helper shape shared by the five `add_*` functions of models.py:
state is the `item` table plus its next primary key; the function
returns the seed name and, when no row with that name exists yet, the
table extended by the new row. -/
def add_seed_item (name image description : String) (price : Int)
    (st : List Item × Nat) : String × (List Item × Nat) :=
  if st.1.any (fun x => x.name == name) then
    (name, st)
  else
    (name, (st.1 ++ [⟨st.2, name, image, description, price⟩], st.2 + 1))

/-- Function `models.add_pocket_watch`. -/
def add_pocket_watch : List Item × Nat → String × (List Item × Nat) :=
  add_seed_item "Normal Pocket Watch" "watch.jpg" pocketWatchDesc 10099

/-- Function `models.add_ice_cream_machine`. -/
def add_ice_cream_machine : List Item × Nat → String × (List Item × Nat) :=
  add_seed_item "Normal Ice Cream Machine" "ice_cream.jpg" iceCreamDesc 5249

/-- Function `models.add_cloak`. -/
def add_cloak : List Item × Nat → String × (List Item × Nat) :=
  add_seed_item "Normal Cloak" "cloak.jpg" cloakDesc 1000

/-- Function `models.add_helmet`. -/
def add_helmet : List Item × Nat → String × (List Item × Nat) :=
  add_seed_item "Normal Helmet" "helmet.jpg" helmetDesc 1200

/-- Function `models.add_wormhole_generator`. -/
def add_wormhole_generator : List Item × Nat → String × (List Item × Nat) :=
  add_seed_item "Normal Wormhole Generator" "generator.jpg" generatorDesc 10000000

/-- Function `models.add_items`: runs the five seed helpers in source
order and returns the collected names together with the updated item
table. -/
def add_items (st : List Item × Nat) : List String × (List Item × Nat) :=
  let r1 := add_pocket_watch st
  let r2 := add_ice_cream_machine r1.2
  let r3 := add_cloak r2.2
  let r4 := add_helmet r3.2
  let r5 := add_wormhole_generator r4.2
  ([r1.1, r2.1, r3.1, r4.1, r5.1], r5.2)

/-- The five fixed seed item names, in seeding order. -/
def seedNames : List String :=
  ["Normal Pocket Watch", "Normal Ice Cream Machine", "Normal Cloak",
   "Normal Helmet", "Normal Wormhole Generator"]

/-- Handler `get_items` (GET /items/): re-runs the seed routine, stores
the returned name list in the session under "items" and renders the
catalog. -/
def get_items (db : DB) (s : Session) : DB × Session :=
  let r := add_items (db.items, db.nextItemId)
  ({ db with items := r.2.1, nextItemId := r.2.2 },
    sinsert s "items" (SVal.names r.1))

/-- One listing-view step on a database/session pair, for iterating the
seed-bearing catalog view. -/
def get_items_step (p : DB × Session) : DB × Session :=
  get_items p.1 p.2

-- Checkout line items and order posting -------------------------------------

/-- The comprehension shared by `get_checkout` and `post_order`:
`[(x, session[x.name]) for x in Item.query.all() if x.name in session
and session[x.name]]` followed by the `sum(x[0].price * x[1] ...)`
total.  An item contributes a line exactly when its name is a session
key holding a Python-truthy value; a truthy value that is not an
integer later makes the price multiplication raise `TypeError`
(modelled by `none`), a falsy or absent one is skipped. -/
def line_entries (items : List Item) (s : Session) : Option (List (Item × Int)) :=
  match items with
  | [] => some []
  | x :: rest =>
    match slookup s x.name with
    | some (SVal.int n) =>
      if n != 0 then (line_entries rest s).map (fun l => (x, n) :: l)
      else line_entries rest s
    | some (SVal.str v) =>
      if v != "" then none else line_entries rest s
    | some (SVal.names l) =>
      if !l.isEmpty then none else line_entries rest s
    | none => line_entries rest s

/-- Total of a list of line items: sum of price times quantity. -/
def linesTotal : List (Item × Int) → Int
  | [] => 0
  | p :: rest => p.1.price * p.2 + linesTotal rest

/-- The `OrderItem` rows inserted by the loop of `post_order`, with
auto-increment ids starting at `nid`. -/
def mkOrderItems (oid : Nat) (nid : Nat) : List (Item × Int) → List OrderItem
  | [] => []
  | p :: rest => ⟨nid, oid, p.1.id, p.2⟩ :: mkOrderItems oid (nid + 1) rest

/-- The database after both commits of `post_order`: the new `Order`
row (primary key `nextOrderId`, purchaser snapshot, computed total) and
its `OrderItem` rows. -/
def commit_order (db : DB) (user : User) (lines : List (Item × Int)) : DB :=
  { db with
    orders := db.orders ++ [⟨db.nextOrderId, user.name, user.address, linesTotal lines⟩],
    nextOrderId := db.nextOrderId + 1,
    orderItems := db.orderItems ++ mkOrderItems db.nextOrderId db.nextOrderItemId lines,
    nextOrderItemId := db.nextOrderItemId + (mkOrderItems db.nextOrderId db.nextOrderItemId lines).length }

/-- The cart-clearing loop of `post_order`:
`for item in session.get('items'): session.pop(item, None)`. -/
def clearCart (s : Session) (names : List String) : Session :=
  names.foldl (fun acc nm => serase acc nm) s

/-- Result of the `post_order` handler.  `errBefore`: an uncaught
exception before the first commit (missing or non-string "username"
key, no matching user row, or a non-integer truthy cart value), nothing
persisted.  `errAfter`: both commits succeeded but iterating
`session.get('items')` raised (key absent or an integer), so the order
is persisted while the response is a 500 and the session is not saved.
`ok`: both commits succeeded and the cart was cleared. -/
inductive PostResult where
  | errBefore
  | errAfter (db : DB)
  | ok (db : DB) (s : Session)
deriving DecidableEq, Repr

/-- Database reached by a `post_order` call, when any commit happened. -/
def PostResult.db? : PostResult → Option DB
  | PostResult.errBefore => none
  | PostResult.errAfter db => some db
  | PostResult.ok db _ => some db

/-- Session stored by a `post_order` call, when the handler completed. -/
def PostResult.sess? : PostResult → Option Session
  | PostResult.ok _ s => some s
  | _ => none

/-- Handler `post_order` (POST /orders/): looks up the user named by
the session, re-derives the line items, creates and commits the `Order`
row, creates and commits one `OrderItem` per line, then pops every name
of the session's "items" snapshot from the session.  A string snapshot
is iterated character by character (Python string iteration); a missing
or integer snapshot raises after the commits. -/
def post_order (db : DB) (s : Session) : PostResult :=
  match slookup s "username" with
  | some (SVal.str un) =>
    match db.users.find? (fun u => u.username == un) with
    | some user =>
      match line_entries db.items s with
      | some lines =>
        match slookup s "items" with
        | some (SVal.names l) =>
          PostResult.ok (commit_order db user lines) (clearCart s l)
        | some (SVal.str v) =>
          PostResult.ok (commit_order db user lines)
            (clearCart s (v.data.map Char.toString))
        | some (SVal.int _) => PostResult.errAfter (commit_order db user lines)
        | none => PostResult.errAfter (commit_order db user lines)
      | none => PostResult.errBefore
    | none => PostResult.errBefore
  | some _ => PostResult.errBefore
  | none => PostResult.errBefore

/-- Price of the item row with a given id, as read back when summing an
order's line items (0 when the id resolves to no row). -/
def priceOf (items : List Item) (iid : Nat) : Int :=
  match items.find? (fun y => y.id == iid) with
  | some it => it.price
  | none => 0

/-- Sum of price times quantity over a list of `OrderItem` rows,
resolving each item id against the given item table. -/
def oiSum (items : List Item) : List OrderItem → Int
  | [] => 0
  | oi :: rest => priceOf items oi.item_id * oi.quantity + oiSum items rest

/-- Sum of price times quantity over the `OrderItem` rows of the order
with the given id. -/
def orderItemsTotal (db : DB) (oid : Nat) : Int :=
  oiSum db.items (db.orderItems.filter (fun oi => oi.order_id == oid))

-- Concrete scenario: freshly seeded catalog, one registered user ------------

/-- A registered user, as created by the registration handler. -/
def alice : User :=
  ⟨1, "alice", "Alice", "alice@example.com", "1 Example St", "secret", "4000111122223333"⟩

/-- The item table produced by seeding an empty database (ids 1..5). -/
def seededItems : List Item := (add_items ([], 1)).2.1

/-- Database holding the five seeded items and the user `alice`, with
no orders yet. -/
def db0 : DB :=
  { users := [alice], items := seededItems, orders := [], orderItems := [],
    nextUserId := 2, nextItemId := 6, nextOrderId := 1, nextOrderItemId := 1 }

/-- Session of a logged-in `alice` who viewed the catalog and put two
Normal Cloaks in the cart. -/
def s0 : Session :=
  [("username", SVal.str "alice"), ("items", SVal.names seedNames),
   ("Normal Cloak", SVal.int 2)]

/-- Expected database after posting the order from `s0` once. -/
def db1c : DB :=
  { db0 with
    orders := [⟨1, "Alice", "1 Example St", 2000⟩],
    nextOrderId := 2,
    orderItems := [⟨1, 1, 3, 2⟩],
    nextOrderItemId := 2 }

/-- Expected session after posting the order from `s0`: the catalog
snapshot names were popped, clearing the cart quantity. -/
def s1c : Session :=
  [("username", SVal.str "alice"), ("items", SVal.names seedNames)]

/-- Expected database after posting the same order a second time. -/
def db2c : DB :=
  { db0 with
    orders := [⟨1, "Alice", "1 Example St", 2000⟩, ⟨2, "Alice", "1 Example St", 2000⟩],
    nextOrderId := 3,
    orderItems := [⟨1, 1, 3, 2⟩, ⟨2, 2, 3, 2⟩],
    nextOrderItemId := 3 }

/-- Database with an empty item table. -/
def dbEmpty : DB :=
  { users := [], items := [], orders := [], orderItems := [],
    nextUserId := 1, nextItemId := 1, nextOrderId := 1, nextOrderItemId := 1 }

-- Basic association-list lemmas -------------------------------------------

theorem slookup_sinsert_self (s : Session) (k : String) (v : SVal) :
    slookup (sinsert s k v) k = some v := by
  induction s with
  | nil => simp [sinsert, slookup]
  | cons p rest ih =>
    obtain ⟨a, b⟩ := p
    by_cases hak : a = k
    · subst hak
      simp [sinsert, slookup]
    · simp [sinsert, slookup, hak, ih]

theorem slookup_sinsert_ne (s : Session) (k k' : String) (v : SVal)
    (h : k' ≠ k) : slookup (sinsert s k v) k' = slookup s k' := by
  induction s with
  | nil => simp [sinsert, slookup, Ne.symm h]
  | cons p rest ih =>
    obtain ⟨a, b⟩ := p
    by_cases hak : a = k
    · subst hak
      simp [sinsert, slookup, Ne.symm h]
    · by_cases hak' : a = k'
      · subst hak'
        simp [sinsert, slookup, hak]
      · simp [sinsert, slookup, hak, hak', ih]

theorem slookup_serase_self (s : Session) (k : String) :
    slookup (serase s k) k = none := by
  induction s with
  | nil => simp [serase, slookup]
  | cons p rest ih =>
    obtain ⟨a, b⟩ := p
    by_cases hak : a = k
    · subst hak
      simpa [serase] using ih
    · simp [serase, slookup, hak, ih]

theorem slookup_serase_ne (s : Session) (k k' : String) (h : k' ≠ k) :
    slookup (serase s k) k' = slookup s k' := by
  induction s with
  | nil => simp [serase, slookup]
  | cons p rest ih =>
    obtain ⟨a, b⟩ := p
    by_cases hak : a = k
    · subst hak
      simp [serase, slookup, Ne.symm h, ih]
    · by_cases hak' : a = k'
      · subst hak'
        simp [serase, slookup, hak, ih]
      · simp [serase, slookup, hak, hak', ih]

-- Claim theorems -------------------------------------------------------------

/-- C1: for a session cart containing exactly two Normal Cloaks (price
10.00, i.e. 1000 cents) over the seeded five-item catalog, posting an
order creates exactly one Order row with total 20.00 (2000 cents) for
the purchaser's snapshot, exactly one OrderItem row with quantity 2 (for
the cloak, item id 3), and afterwards the session holds only the
"username" and "items" keys — every cart quantity key is gone. -/
theorem c1_checkout_normal_cloak :
    (post_order db0 s0).db?.map (fun d => d.orders.map (fun o => (o.name, o.address, o.total)))
      = some [("Alice", "1 Example St", 2000)] ∧
    (post_order db0 s0).db?.map (fun d => d.orderItems.map (fun oi => (oi.order_id, oi.item_id, oi.quantity)))
      = some [(1, 3, 2)] ∧
    (post_order db0 s0).sess?.map (fun t => t.map Prod.fst)
      = some ["username", "items"] ∧
    (post_order db0 s0).sess?.map (fun t => slookup t "Normal Cloak")
      = some none := by
  decide

/-- C6 counterexample: the claim quantifies over every session state,
but when the item already has quantity 1 in the cart, adding 2 and then
3 yields 6, not 5 — the handler increments the stored quantity. -/
theorem c6_counterexample :
    add_to_cart [("Normal Cloak", SVal.int 1)] "Normal Cloak" 2
      = some [("Normal Cloak", SVal.int 3)] ∧
    add_to_cart [("Normal Cloak", SVal.int 3)] "Normal Cloak" 3
      = some [("Normal Cloak", SVal.int 6)] ∧
    slookup [("Normal Cloak", SVal.int 6)] "Normal Cloak" ≠ some (SVal.int 5) := by
  decide

/-- C6 (amended): for every item name whose key is absent from the
session, adding quantity 2 and then quantity 3 yields session quantity
5; in general the add operation increments an existing integer session
quantity by the submitted integer, or sets it when the key is absent. -/
theorem c6_amended_add_quantities (s : Session) (item : String) :
    (slookup s item = none →
      add_to_cart s item 2 = some (sinsert s item (SVal.int 2)) ∧
      add_to_cart (sinsert s item (SVal.int 2)) item 3
        = some (sinsert (sinsert s item (SVal.int 2)) item (SVal.int 5)) ∧
      slookup (sinsert (sinsert s item (SVal.int 2)) item (SVal.int 5)) item
        = some (SVal.int 5)) ∧
    (∀ q n : Int, slookup s item = some (SVal.int q) →
      add_to_cart s item n = some (sinsert s item (SVal.int (q + n)))) := by
  constructor
  · intro h
    refine ⟨by simp [add_to_cart, h], ?_, ?_⟩
    · simp [add_to_cart, slookup_sinsert_self]
    · exact slookup_sinsert_self _ item (SVal.int 5)
  · intro q n h
    simp [add_to_cart, h]

/-- C6 witness: concrete instances of both amended conjuncts. -/
theorem c6_amended_witness :
    (add_to_cart [] "Normal Cloak" 2 = some (sinsert [] "Normal Cloak" (SVal.int 2)) ∧
     add_to_cart (sinsert [] "Normal Cloak" (SVal.int 2)) "Normal Cloak" 3
       = some (sinsert (sinsert [] "Normal Cloak" (SVal.int 2)) "Normal Cloak" (SVal.int 5)) ∧
     slookup (sinsert (sinsert [] "Normal Cloak" (SVal.int 2)) "Normal Cloak" (SVal.int 5)) "Normal Cloak"
       = some (SVal.int 5)) ∧
    add_to_cart [("Normal Helmet", SVal.int 4)] "Normal Helmet" 7
      = some (sinsert [("Normal Helmet", SVal.int 4)] "Normal Helmet" (SVal.int (4 + 7))) :=
  ⟨(c6_amended_add_quantities [] "Normal Cloak").1 rfl,
   (c6_amended_add_quantities [("Normal Helmet", SVal.int 4)] "Normal Helmet").2 4 7 rfl⟩

/-- C7: a login attempt with an unknown username and one with a wrong
password both leave the session untouched and render the very same
generic failure view; with matching username and password the username
is stored in the session and the response redirects to the catalog. -/
theorem c7_login_uniform_failure (db : DB) (s : Session) (un pw : String) :
    (db.users.find? (fun u => u.username == un) = none →
      login db s un pw
        = (LoginView.renderLogin "Login" (slookup s "username")
            (some "Wrong username or password"), s)) ∧
    (∀ u, db.users.find? (fun u => u.username == un) = some u → u.password ≠ pw →
      login db s un pw
        = (LoginView.renderLogin "Login" (slookup s "username")
            (some "Wrong username or password"), s)) ∧
    (∀ u, db.users.find? (fun u => u.username == un) = some u → u.password = pw →
      login db s un pw
        = (LoginView.redirectTo "/items/", sinsert s "username" (SVal.str un))) := by
  refine ⟨?_, ?_, ?_⟩
  · intro h
    simp [login, h]
  · intro u h hpw
    simp [login, h, hpw]
  · intro u h hpw
    simp [login, h, hpw]

/-- C7 witness: the three cases at the concrete seeded database. -/
theorem c7_login_witness :
    login db0 [] "bob" "pw"
      = (LoginView.renderLogin "Login" (slookup [] "username")
          (some "Wrong username or password"), []) ∧
    login db0 [] "alice" "wrong"
      = (LoginView.renderLogin "Login" (slookup [] "username")
          (some "Wrong username or password"), []) ∧
    login db0 [] "alice" "secret"
      = (LoginView.redirectTo "/items/", sinsert [] "username" (SVal.str "alice")) :=
  ⟨(c7_login_uniform_failure db0 [] "bob" "pw").1 (by decide),
   (c7_login_uniform_failure db0 [] "alice" "wrong").2.1 alice (by decide) (by decide),
   (c7_login_uniform_failure db0 [] "alice" "secret").2.2 alice (by decide) (by decide)⟩

/-- C8: the cart remove operation answers 404 with an unchanged session
exactly when the named key is absent; when the key is present it
answers 200, the key is gone afterwards, and every other key is
untouched. -/
theorem c8_delete_cart_item_spec (s : Session) (item : String) :
    (((delete_cart_item s item).1.2 = 404 ∧ (delete_cart_item s item).2 = s)
      ↔ slookup s item = none) ∧
    (slookup s item ≠ none →
      (delete_cart_item s item).1.2 = 200 ∧
      slookup (delete_cart_item s item).2 item = none ∧
      ∀ k, k ≠ item → slookup (delete_cart_item s item).2 k = slookup s k) := by
  cases h : slookup s item with
  | none =>
    constructor
    · simp [delete_cart_item, h]
    · intro hc
      exact absurd rfl hc
  | some v =>
    constructor
    · simp [delete_cart_item, h]
    · intro _
      refine ⟨by simp [delete_cart_item, h], ?_, ?_⟩
      · simp [delete_cart_item, h, slookup_serase_self]
      · intro k hk
        simp [delete_cart_item, h, slookup_serase_ne s item k hk]

/-- C8 witness: removing a present key at a concrete session. -/
theorem c8_delete_cart_item_witness :
    (delete_cart_item [("Normal Cloak", SVal.int 2)] "Normal Cloak").1.2 = 200 ∧
    slookup (delete_cart_item [("Normal Cloak", SVal.int 2)] "Normal Cloak").2 "Normal Cloak"
      = none :=
  ⟨((c8_delete_cart_item_spec [("Normal Cloak", SVal.int 2)] "Normal Cloak").2 (by decide)).1,
   ((c8_delete_cart_item_spec [("Normal Cloak", SVal.int 2)] "Normal Cloak").2 (by decide)).2.1⟩

/-- C9: cart state shares the flat session namespace with the login
identity; a cart remove naming "username" deletes the authenticated
identity (here returning 200), a cart add naming "username" on a fresh
session writes an integer into the identity key, and that forged key
then satisfies the authentication gate. -/
theorem c9_flat_session_namespace :
    delete_cart_item [("username", SVal.str "alice"), ("Normal Cloak", SVal.int 2)] "username"
      = (("", 200), [("Normal Cloak", SVal.int 2)]) ∧
    slookup (delete_cart_item [("username", SVal.str "alice"), ("Normal Cloak", SVal.int 2)] "username").2
        "username" = none ∧
    add_to_cart [] "username" 7 = some [("username", SVal.int 7)] ∧
    check_login [("username", SVal.int 7)] "GET" "/checkout/" = none ∧
    check_login [] "GET" "/checkout/" = some "/login/" := by
  decide

/-- C10: the authentication gate exempts requests by path only.  Every
request whose path is "/orders/" — whatever the method and session — is
never redirected, and the gate's answer never depends on the method. -/
theorem c10_orders_path_exempt :
    (∀ (s : Session) (m : String), check_login s m "/orders/" = none) ∧
    (∀ (s : Session) (m₁ m₂ p : String), check_login s m₁ p = check_login s m₂ p) := by
  constructor
  · intro s m
    have h : "/orders/" ∈ allowed_routes := by decide
    simp [check_login, h]
  · intro s m₁ m₂ p
    rfl

/-- C3: registration checks in order — an existing username renders the
"username taken" message with no row created; then a password mismatch
renders its message with no row created; then a raising insert
(duplicate email or payment token) renders the generic failure with the
database rolled back; otherwise exactly one new User row is appended
and the response redirects to the login form. -/
theorem c3_registration_validation_order (db : DB)
    (un nm em ad pay pw pwc : String) :
    (has_user db un = true →
      create_user_route db un nm em ad pay pw pwc = (RegisterResult.usernameTaken, db)) ∧
    (has_user db un = false → pw ≠ pwc →
      create_user_route db un nm em ad pay pw pwc = (RegisterResult.passwordMismatch, db)) ∧
    (has_user db un = false → pw = pwc →
      db.users.any (fun u => u.username == un || u.email == em || u.payment == pay) = true →
      create_user_route db un nm em ad pay pw pwc = (RegisterResult.createFailed, db)) ∧
    (has_user db un = false → pw = pwc →
      db.users.any (fun u => u.username == un || u.email == em || u.payment == pay) = false →
      create_user_route db un nm em ad pay pw pwc
        = (RegisterResult.redirectLogin,
           { db with
             users := db.users ++ [⟨db.nextUserId, un, nm, em, ad, pw, pay⟩],
             nextUserId := db.nextUserId + 1 })) := by
  refine ⟨?_, ?_, ?_, ?_⟩
  · intro h1
    simp [create_user_route, h1]
  · intro h1 h2
    simp [create_user_route, h1, h2]
  · intro h1 h2 h3
    subst h2
    simp [create_user_route, create_user, h1, h3]
  · intro h1 h2 h3
    subst h2
    simp [create_user_route, create_user, h1, h3]

/-- C3 witness: the four outcomes at concrete inputs over the seeded
database with its one registered user. -/
theorem c3_registration_witness :
    create_user_route db0 "alice" "A" "a@x.com" "addr" "t9" "p" "p"
      = (RegisterResult.usernameTaken, db0) ∧
    create_user_route db0 "bob" "Bob" "bob@x.com" "t8" "addr" "p1" "p2"
      = (RegisterResult.passwordMismatch, db0) ∧
    create_user_route db0 "bob" "Bob" "alice@example.com" "addr" "t8" "p" "p"
      = (RegisterResult.createFailed, db0) ∧
    create_user_route db0 "bob" "Bob" "bob@x.com" "2 St" "t8" "p" "p"
      = (RegisterResult.redirectLogin,
         { db0 with
           users := db0.users ++ [⟨db0.nextUserId, "bob", "Bob", "bob@x.com", "2 St", "p", "t8"⟩],
           nextUserId := db0.nextUserId + 1 }) :=
  ⟨(c3_registration_validation_order db0 "alice" "A" "a@x.com" "addr" "t9" "p" "p").1 (by decide),
   (c3_registration_validation_order db0 "bob" "Bob" "bob@x.com" "t8" "addr" "p1" "p2").2.1
     (by decide) (by decide),
   (c3_registration_validation_order db0 "bob" "Bob" "alice@example.com" "addr" "t8" "p" "p").2.2.1
     (by decide) rfl (by decide),
   (c3_registration_validation_order db0 "bob" "Bob" "bob@x.com" "2 St" "t8" "p" "p").2.2.2
     (by decide) rfl (by decide)⟩

-- Seed idempotence (C4) ------------------------------------------------------

/-- Predicate: the item table already holds a row for each of the five
seed names (what each `add_*` helper checks before inserting). -/
abbrev containsSeedNames (items : List Item) : Prop :=
  ∀ nm ∈ seedNames, items.any (fun x => x.name == nm) = true

theorem add_items_fixed (items : List Item) (nid : Nat)
    (h : containsSeedNames items) : (add_items (items, nid)).2 = (items, nid) := by
  have h1 := h "Normal Pocket Watch" (by simp [seedNames])
  have h2 := h "Normal Ice Cream Machine" (by simp [seedNames])
  have h3 := h "Normal Cloak" (by simp [seedNames])
  have h4 := h "Normal Helmet" (by simp [seedNames])
  have h5 := h "Normal Wormhole Generator" (by simp [seedNames])
  simp [add_items, add_pocket_watch, add_ice_cream_machine, add_cloak,
    add_helmet, add_wormhole_generator, add_seed_item, h1, h2, h3, h4, h5]

theorem get_items_fixed (db : DB) (s : Session) (h : containsSeedNames db.items) :
    get_items db s
      = (db, sinsert s "items" (SVal.names (add_items (db.items, db.nextItemId)).1)) := by
  have hfix := add_items_fixed db.items db.nextItemId h
  cases db with
  | mk us its ors ois a b c d =>
    simp only [get_items, hfix]

theorem contains_of_names (items : List Item) :
    ∀ nm ∈ items.map Item.name, items.any (fun x => x.name == nm) = true := by
  intro nm hm
  simp only [List.any_eq_true]
  obtain ⟨x, hx, rfl⟩ := List.mem_map.mp hm
  exact ⟨x, hx, by simp⟩

set_option maxHeartbeats 2000000 in
theorem names_after_empty (nid : Nat) :
    ((add_items ([], nid)).2.1).map Item.name = seedNames := rfl

/-- C4: the catalog-seed routine run by the listing view is idempotent:
from any database whose item table already holds the five seed names,
any number of listing views leaves the item table unchanged; and from
an empty item table, two listing views yield exactly the five seed
rows, one per fixed name, with no duplicates. -/
theorem c4_seed_idempotent :
    (∀ (db : DB) (s : Session) (k : Nat), containsSeedNames db.items →
      ((get_items_step^[k]) (db, s)).1.items = db.items) ∧
    (∀ (db : DB) (s : Session), db.items = [] →
      ((get_items_step^[2]) (db, s)).1.items.map Item.name = seedNames ∧
      seedNames.Nodup) := by
  constructor
  · intro db s k h
    have key : ∀ (k : Nat) (t : Session), ((get_items_step^[k]) (db, t)).1 = db := by
      intro k
      induction k with
      | zero => intro t; rfl
      | succ n ihn =>
        intro t
        rw [Function.iterate_succ_apply]
        rw [show get_items_step (db, t)
              = (db, sinsert t "items" (SVal.names (add_items (db.items, db.nextItemId)).1))
            from get_items_fixed db t h]
        exact ihn _
    rw [key k s]
  · intro db s h
    cases db with
    | mk us its ors ois a b c d =>
      have hits : its = [] := h
      subst hits
      refine ⟨?_, by decide⟩
      have hcontains := contains_of_names (add_items ([], b)).2.1
      rw [names_after_empty b] at hcontains
      have hmid : containsSeedNames (add_items ([], b)).2.1 := fun nm hm =>
        hcontains nm (by simpa [seedNames] using hm)
      show (get_items_step (get_items_step (DB.mk us [] ors ois a b c d, s))).1.items.map Item.name
        = seedNames
      rw [show get_items_step (DB.mk us [] ors ois a b c d, s)
            = (DB.mk us (add_items ([], b)).2.1 ors ois a (add_items ([], b)).2.2 c d,
               sinsert s "items" (SVal.names (add_items ([], b)).1)) from rfl]
      rw [show get_items_step
              (DB.mk us (add_items ([], b)).2.1 ors ois a (add_items ([], b)).2.2 c d,
               sinsert s "items" (SVal.names (add_items ([], b)).1))
            = ((DB.mk us (add_items ([], b)).2.1 ors ois a (add_items ([], b)).2.2 c d),
               sinsert (sinsert s "items" (SVal.names (add_items ([], b)).1)) "items"
                 (SVal.names (add_items ((add_items ([], b)).2.1, (add_items ([], b)).2.2)).1))
          from get_items_fixed _ _ hmid]
      exact names_after_empty b

/-- C4 witness: three listing views on the already-seeded database
leave the item table unchanged, and two listing views on an empty item
table produce exactly the seed names without duplicates. -/
theorem c4_seed_idempotent_witness :
    ((get_items_step^[3]) (db0, [])).1.items = db0.items ∧
    ((get_items_step^[2]) (dbEmpty, [])).1.items.map Item.name = seedNames ∧
    seedNames.Nodup :=
  ⟨c4_seed_idempotent.1 db0 [] 3 (by decide),
   (c4_seed_idempotent.2 dbEmpty [] rfl).1,
   (c4_seed_idempotent.2 dbEmpty [] rfl).2⟩

-- Order-total invariant and double submission (C2, C5) -----------------------

theorem post_order_db_inv (db : DB) (s : Session) (db' : DB)
    (h : (post_order db s).db? = some db') :
    ∃ un user lines,
      slookup s "username" = some (SVal.str un) ∧
      db.users.find? (fun u => u.username == un) = some user ∧
      line_entries db.items s = some lines ∧
      db' = commit_order db user lines := by
  unfold post_order at h
  repeat' split at h
  all_goals simp only [PostResult.db?, Option.some.injEq] at h
  all_goals first
    | exact Option.noConfusion h
    | exact ⟨_, _, _, by assumption, by assumption, by assumption, h.symm⟩

theorem filter_order_id_nil (l : List OrderItem) (nid : Nat)
    (h : ∀ oi ∈ l, oi.order_id ≠ nid) :
    l.filter (fun oi => oi.order_id == nid) = [] := by
  induction l with
  | nil => rfl
  | cons a t ih =>
    have ha : a.order_id ≠ nid := h a (by simp)
    simp only [List.filter_cons]
    simp [ha, ih (fun oi hm => h oi (by simp [hm]))]

theorem mkOrderItems_filter (oid : Nat) (lines : List (Item × Int)) :
    ∀ nid, (mkOrderItems oid nid lines).filter (fun oi => oi.order_id == oid)
      = mkOrderItems oid nid lines := by
  induction lines with
  | nil => intro nid; rfl
  | cons p t ih =>
    intro nid
    simp only [mkOrderItems, List.filter_cons]
    simp [ih (nid + 1)]

theorem line_entries_mem (items : List Item) (s : Session) :
    ∀ lines, line_entries items s = some lines → ∀ p ∈ lines, p.1 ∈ items := by
  induction items with
  | nil =>
    intro lines h p hp
    simp [line_entries] at h
    subst h
    simp at hp
  | cons x rest ih =>
    intro lines h p hp
    simp only [line_entries] at h
    split at h
    · split at h
      · obtain ⟨l', hle, hcons⟩ := Option.map_eq_some'.mp h
        subst hcons
        rcases List.mem_cons.mp hp with rfl | hpl
        · exact List.mem_cons_self x rest
        · exact List.mem_cons_of_mem x (ih l' hle p hpl)
      · exact List.mem_cons_of_mem x (ih lines h p hp)
    · split at h
      · exact absurd h (by simp)
      · exact List.mem_cons_of_mem x (ih lines h p hp)
    · split at h
      · exact absurd h (by simp)
      · exact List.mem_cons_of_mem x (ih lines h p hp)
    · exact List.mem_cons_of_mem x (ih lines h p hp)

theorem find?_id_of_nodup (items : List Item)
    (hids : (items.map Item.id).Nodup) (x : Item) (hx : x ∈ items) :
    items.find? (fun y => y.id == x.id) = some x := by
  induction items with
  | nil => simp at hx
  | cons a t ih =>
    simp only [List.map_cons, List.nodup_cons] at hids
    obtain ⟨hna, hnt⟩ := hids
    rcases List.mem_cons.mp hx with rfl | hxt
    · exact List.find?_cons_of_pos _ (by simp)
    · have hne : a.id ≠ x.id := by
        intro he
        exact hna (he ▸ List.mem_map_of_mem Item.id hxt)
      rw [List.find?_cons_of_neg _ (by simp [hne])]
      exact ih hnt hxt

theorem oiSum_mkOrderItems (items : List Item) (oid : Nat) (lines : List (Item × Int))
    (hprice : ∀ p ∈ lines, priceOf items p.1.id = p.1.price) :
    ∀ nid, oiSum items (mkOrderItems oid nid lines) = linesTotal lines := by
  induction lines with
  | nil => intro nid; rfl
  | cons p t ih =>
    intro nid
    simp only [mkOrderItems, oiSum, linesTotal]
    rw [hprice p (by simp), ih (fun q hq => hprice q (by simp [hq])) (nid + 1)]

/-- C2: whenever `post_order` reaches its commits, the created Order
row is appended with a stored total equal to the sum, over its
OrderItem rows, of the item's price times the row's quantity — provided
the existing OrderItem rows do not already use the new order's id and
the item ids are unique (both hold for databases built by this app). -/
theorem c2_order_total_invariant (db : DB) (s : Session) (db' : DB)
    (hpost : (post_order db s).db? = some db')
    (hfresh : ∀ oi ∈ db.orderItems, oi.order_id ≠ db.nextOrderId)
    (hids : (db.items.map Item.id).Nodup) :
    ∃ o, db'.orders = db.orders ++ [o] ∧ o.total = orderItemsTotal db' o.id := by
  obtain ⟨un, user, lines, hu, hf, hl, hdb⟩ := post_order_db_inv db s db' hpost
  subst hdb
  refine ⟨⟨db.nextOrderId, user.name, user.address, linesTotal lines⟩, rfl, ?_⟩
  have hmem := line_entries_mem db.items s lines hl
  have hprice : ∀ p ∈ lines, priceOf db.items p.1.id = p.1.price := by
    intro p hp
    unfold priceOf
    rw [find?_id_of_nodup db.items hids p.1 (hmem p hp)]
  have hitems : (commit_order db user lines).items = db.items := rfl
  have hois : (commit_order db user lines).orderItems
      = db.orderItems ++ mkOrderItems db.nextOrderId db.nextOrderItemId lines := rfl
  show linesTotal lines
      = orderItemsTotal (commit_order db user lines) db.nextOrderId
  unfold orderItemsTotal
  rw [hitems, hois, List.filter_append,
    filter_order_id_nil db.orderItems db.nextOrderId hfresh,
    mkOrderItems_filter, List.nil_append,
    oiSum_mkOrderItems db.items db.nextOrderId lines hprice db.nextOrderItemId]

/-- C2 witness: the concrete Normal Cloak checkout. -/
theorem c2_order_total_witness :
    ∃ o, db1c.orders = db0.orders ++ [o] ∧ o.total = orderItemsTotal db1c o.id :=
  c2_order_total_invariant db0 s0 db1c (by rfl) (by decide) (by decide)

/-- C5: submitting the same checkout POST twice in succession — the
same session both times, with no intervening cart mutation — appends
two separate Order rows with identical totals. -/
theorem c5_double_submit (db : DB) (s : Session) (db1 : DB) (s1 : Session)
    (db2 : DB) (s2 : Session)
    (h1 : post_order db s = PostResult.ok db1 s1)
    (h2 : post_order db1 s = PostResult.ok db2 s2) :
    ∃ o1 o2, db2.orders = db.orders ++ [o1, o2] ∧ o1.total = o2.total := by
  have h1' : (post_order db s).db? = some db1 := by rw [h1]; rfl
  have h2' : (post_order db1 s).db? = some db2 := by rw [h2]; rfl
  obtain ⟨un, user, lines, hu, hf, hl, hdb1⟩ := post_order_db_inv db s db1 h1'
  obtain ⟨un', user', lines', hu', hf', hl', hdb2⟩ := post_order_db_inv db1 s db2 h2'
  rw [hu] at hu'
  have hun : un = un' := by
    have := Option.some.inj hu'
    cases this
    rfl
  subst hun
  have hus : db1.users = db.users := by rw [hdb1]; rfl
  have hit : db1.items = db.items := by rw [hdb1]; rfl
  rw [hus, hf] at hf'
  have huser : user = user' := Option.some.inj hf'
  subst huser
  rw [hit, hl] at hl'
  have hlines : lines = lines' := Option.some.inj hl'
  subst hlines
  subst hdb1
  subst hdb2
  refine ⟨⟨db.nextOrderId, user.name, user.address, linesTotal lines⟩,
    ⟨db.nextOrderId + 1, user.name, user.address, linesTotal lines⟩, ?_, rfl⟩
  show (commit_order (commit_order db user lines) user lines).orders = _
  simp [commit_order]

/-- C5 witness: the concrete Normal Cloak checkout submitted twice. -/
theorem c5_double_submit_witness :
    ∃ o1 o2, db2c.orders = db0.orders ++ [o1, o2] ∧ o1.total = o2.total :=
  c5_double_submit db0 s0 db1c s1c db2c s1c (by rfl) (by rfl)
